import Mathlib

/-!
Verification development for the `shure_device_control` repository.

The repository is a Python client for the ASCII control protocol of two
wireless-audio device families:
* `ad4d.py`  — the multi-channel family (channels 1–4), reply keyword `REP`;
* `p10t.py`  — the point-to-point family (channels 1–2), reply keyword `REPORT`;
* `monitor.py` — a continuous monitor with a polling mode (ad4d) and a
  passive-streaming mode (p10t).

This file gives a shallow embedding of the parts of the source the frozen
claims are about: Python string primitives; the key registries and the
`--set` validation path of both CLIs; the reply-line grammars (embedded as
executable matchers that follow the source regexes, with the backtracking
of each pattern analysed in comments at the definition); line extraction
and reply matching inside `send_command` of both CLIs; the bulk-merge
loops; and the monitor's `handle_response` / `handle_sample` /
`process_raw_data` / passive-line dispatch.

All strings are treated as ASCII (the device protocol is ASCII): Python's
`str.strip`, `\s`, `str.split()` and `str.upper` are modelled on the ASCII
whitespace set and ASCII letters.
-/

/-! ### Python string primitives -/

/-- The ASCII whitespace characters recognised by Python's `str.strip()`,
`str.split()` and the regex class `\s`: space, tab, LF, CR, VT, FF. -/
def isPySpace (c : Char) : Bool :=
  c = ' ' || c = '\t' || c = '\n' || c = '\r' || c = Char.ofNat 11 || c = Char.ofNat 12

/-- `str.strip()` on a character list: drop leading and trailing whitespace. -/
def pyStripList (l : List Char) : List Char :=
  ((l.dropWhile isPySpace).reverse.dropWhile isPySpace).reverse

/-- Python `str.strip()` (no argument). -/
def pyStrip (s : String) : String :=
  ⟨pyStripList s.data⟩

/-- Python `str.strip(chars)`: drop leading and trailing characters drawn
from the set `cs`. -/
def pyStripChars (cs : List Char) (s : String) : String :=
  ⟨((s.data.dropWhile (· ∈ cs)).reverse.dropWhile (· ∈ cs)).reverse⟩

/-- Worker for `pySplitWS`: split on runs of whitespace, dropping empties,
accumulating the current word in reverse. -/
def pySplitWSGo : List Char → List Char → List String
  | [], acc => if acc = [] then [] else [⟨acc.reverse⟩]
  | c :: t, acc =>
    if isPySpace c then
      if acc = [] then pySplitWSGo t [] else ⟨acc.reverse⟩ :: pySplitWSGo t []
    else
      pySplitWSGo t (c :: acc)

/-- Python `str.split()` with no argument: split on whitespace runs and
drop empty fields. -/
def pySplitWS (s : String) : List String :=
  pySplitWSGo s.data []

/-- Python `str.upper()` restricted to ASCII. -/
def pyUpper (s : String) : String :=
  ⟨s.data.map Char.toUpper⟩

/-- Numeric value of an ASCII digit. -/
def digitVal (c : Char) : Nat := c.toNat - '0'.toNat

/-- Python `int(...)` on a string of ASCII digits. -/
def natOfDigits (l : List Char) : Nat :=
  l.foldl (fun a c => 10 * a + digitVal c) 0

/-- `pat` occurs as a contiguous substring of `s` (Python's `pat in s`). -/
def containsSub (pat : List Char) : List Char → Bool
  | [] => pat.isEmpty
  | c :: t => pat.isPrefixOf (c :: t) || containsSub pat t

/-- Python `"ERR" in part` on strings. -/
def pyContains (pat s : String) : Bool :=
  containsSub pat.data s.data

/-- Python `s.startswith(pre)`. -/
def pyStartsWith (s pre : String) : Bool :=
  pre.data.isPrefixOf s.data

/-- Worker for `pySplitOn`: scan left to right; wherever `sep` is a
prefix, cut and continue after it (leftmost, non-overlapping — Python's
`str.split(sep)`).  The fuel argument (initialised to the string length,
an upper bound on the number of scan steps) only makes the recursion
structural; it never runs out because every step consumes at least one
character. -/
def pySplitListGo (sep : List Char) : Nat → List Char → List Char → List (List Char)
  | _, [], acc => [acc.reverse]
  | 0, s, acc => [acc.reverse ++ s]
  | fuel + 1, c :: t, acc =>
    if sep.isPrefixOf (c :: t) then
      acc.reverse :: pySplitListGo sep fuel ((c :: t).drop sep.length) []
    else
      pySplitListGo sep fuel t (c :: acc)

/-- Python `s.split(sep)` for a non-empty separator. -/
def pySplitOn (s sep : String) : List String :=
  (pySplitListGo sep.data s.data.length s.data []).map fun l => ⟨l⟩

/-! ### Regex character classes used by the source patterns -/

/-- The class `[A-Z0-9_]` of `ad4d.py`'s `REP_RE` key group. -/
def isKeyChar (c : Char) : Bool :=
  ('A' ≤ c && c ≤ 'Z') || ('0' ≤ c && c ≤ '9') || c = '_'

/-- The class `[^>}]` of `ad4d.py`'s `REP_RE` value group. -/
def isValChar (c : Char) : Bool :=
  !(c = '>') && !(c = '}')

/-- The class `\d` (ASCII digits). -/
def isDigitChar (c : Char) : Bool :=
  '0' ≤ c && c ≤ '9'

/-- The class `\S` (non-whitespace). -/
def isNonSpace (c : Char) : Bool :=
  !(isPySpace c)

/-! ### ad4d.py — key registry (lines 11–55) -/

def ad4d.DEVICE_GET_ONLY_KEYS : List String :=
  ["DEVICE_ID", "MODEL", "FW_VER", "RF_BAND", "TRANSMISSION_MODE",
   "QUADVERSITY_MODE", "ENCRYPTION_MODE"]

def ad4d.DEVICE_GET_SET_KEYS : List String := ["DEVICE_ID"]

def ad4d.CHANNEL_GET_SET_KEYS : List String :=
  ["CHAN_NAME", "AUDIO_GAIN", "AUDIO_MUTE", "FREQUENCY", "GROUP_CHANNEL",
   "METER_RATE", "FLASH"]

def ad4d.CHANNEL_GET_ONLY_KEYS : List String :=
  ["FD_MODE", "ENCRYPTION_STATUS", "INTERFERENCE_STATUS",
   "UNREGISTERED_TX_STATUS", "AUDIO_LEVEL_PEAK", "AUDIO_LEVEL_RMS",
   "CHAN_QUALITY", "RSSI", "ANTENNA_STATUS", "TX_BATT_MINS", "TX_BATT_TYPE",
   "TX_MODEL", "TX_DEVICE_ID", "TX_POWER_LEVEL"]

def ad4d.ALL_KEYS : List String :=
  ad4d.DEVICE_GET_ONLY_KEYS ++ ad4d.DEVICE_GET_SET_KEYS ++
  ad4d.CHANNEL_GET_SET_KEYS ++ ad4d.CHANNEL_GET_ONLY_KEYS

/-- The `brace_keys` set of `ad4d.py` `main` (lines 313–320). -/
def ad4d.brace_keys : List String :=
  ["CHAN_NAME", "DEVICE_ID", "GROUP_CHANNEL", "GROUP_CHANNEL2",
   "TX_DEVICE_ID", "SLOT_TX_DEVICE_ID"]

/-! ### p10t.py — key registry (lines 10–25) -/

def p10t.DEVICE_GET_ONLY_KEYS : List String := ["DEVICE_NAME"]

def p10t.DEVICE_GET_SET_KEYS : List String := []

def p10t.CHANNEL_GET_SET_KEYS : List String :=
  ["CHAN_NAME", "AUDIO_IN_LVL", "GROUP_CHAN", "FREQUENCY", "RF_TX_LVL",
   "RF_MUTE", "AUDIO_TX_MODE", "AUDIO_IN_LINE_LVL", "METER_RATE"]

def p10t.ALL_KEYS : List String :=
  p10t.DEVICE_GET_ONLY_KEYS ++ p10t.DEVICE_GET_SET_KEYS ++
  p10t.CHANNEL_GET_SET_KEYS

/-! ### build_command (ad4d.py 94–106, p10t.py 64–76) -/

/-- `ad4d.py` `build_command`.  `channel` is `args.channel`, a Python
`str` or `None`; a `.error` models the raised `ValueError`'s message. -/
def ad4d.build_command (channel : Option String) (key : String) :
    Except String String :=
  let key := pyUpper key
  if key ∈ ad4d.ALL_KEYS then
    if key ∈ ad4d.DEVICE_GET_ONLY_KEYS || key ∈ ad4d.DEVICE_GET_SET_KEYS then
      .ok key
    else
      match channel with
      | some c =>
        if c ∈ (["1", "2", "3", "4"] : List String) then .ok (c ++ " " ++ key)
        else .error "Channel must be 1-4 for channel-level keys"
      | none => .error "Channel must be 1-4 for channel-level keys"
  else
    .error ("Unknown key: " ++ key)

/-- `p10t.py` `build_command`. -/
def p10t.build_command (channel : Option String) (key : String) :
    Except String String :=
  let key := pyUpper key
  if key ∈ p10t.ALL_KEYS then
    if key ∈ p10t.DEVICE_GET_ONLY_KEYS || key ∈ p10t.DEVICE_GET_SET_KEYS then
      .ok key
    else
      match channel with
      | some c =>
        if c ∈ (["1", "2"] : List String) then .ok (c ++ " " ++ key)
        else .error "Channel must be 1 or 2 for channel-level keys"
      | none => .error "Channel must be 1 or 2 for channel-level keys"
  else
    .error ("Unknown key: " ++ key)

/-! ### The `--set` path of `main` (ad4d.py 296–330, p10t.py 258–280)

What `main` does with a `--set` request before (possibly) opening a
socket.  Every `exit…` constructor corresponds to a `sys.exit(1)` that
happens strictly before `send_command` is called, i.e. before any network
I/O; only `send cmd` reaches `send_command` (which is the sole place a
socket is opened on this path). -/

inductive SetAction where
  /-- `build_command` raised `ValueError` (unknown key / bad channel);
  `main` prints the error and exits 1 before any network call. -/
  | exitBuildError (msg : String)
  /-- the read-only rejection (`"… is read-only and cannot be set"`). -/
  | exitReadOnly
  /-- `--value` missing. -/
  | exitMissingValue
  /-- `send_command(host, port, cmd, …)` is invoked: network I/O happens. -/
  | send (cmd : String)
  deriving DecidableEq, Repr

/-- The `--set` path of `ad4d.py` `main`: `build_command` first
(lines 296–300), then the `DEVICE_GET_ONLY_KEYS` read-only check
(302–308), then the missing-value check (309–311), then brace wrapping
(313–322) and the `send_command` call (324–330). -/
def ad4d.set_main (channel : Option String) (key : String)
    (value : Option String) : SetAction :=
  match ad4d.build_command channel key with
  | .error e => .exitBuildError e
  | .ok full_key =>
    if pyUpper key ∈ ad4d.DEVICE_GET_ONLY_KEYS then .exitReadOnly
    else
      match value with
      | none => .exitMissingValue
      | some v =>
        let v' := if pyUpper key ∈ ad4d.brace_keys then "\x7b" ++ v ++ "\x7d" else v
        .send ("SET " ++ full_key ++ " " ++ v')

/-- The `--set` path of `p10t.py` `main` (lines 258–280); p10t applies no
brace wrapping. -/
def p10t.set_main (channel : Option String) (key : String)
    (value : Option String) : SetAction :=
  match p10t.build_command channel key with
  | .error e => .exitBuildError e
  | .ok full_key =>
    if pyUpper key ∈ p10t.DEVICE_GET_ONLY_KEYS then .exitReadOnly
    else
      match value with
      | none => .exitMissingValue
      | some v => .send ("SET " ++ full_key ++ " " ++ v)

/-! ### ad4d.py — `REP_RE` and `parse_report_line` (lines 109–125)

```
REP_RE = re.compile(r"^<\s*REP\s+(?:(\d)\s+)?([A-Z0-9_]+)\s+\{?([^>}]+?)\}?\s*>?$")
```
applied with `.match` to `line.strip()`.  The matcher below follows the
pattern piece by piece.  Where the pattern is deterministic because the
adjacent character classes are disjoint, a single greedy step is taken:
* `\s*` before `REP` and the `\s+` after `REP` and after the optional
  channel digit are maximal runs (whitespace is disjoint from `R`, `\d`
  and `[A-Z0-9_]`);
* the key `([A-Z0-9_]+)` is the maximal run: if the maximal run is not
  followed by whitespace, every shorter split leaves a key character
  where `\s+` must match, so the whole branch fails.
Genuine backtracking is kept where the engine needs it:
* the optional channel group `(?:(\d)\s+)?` is tried first and the
  no-channel branch is tried on failure of the whole continuation;
* the `\s+` between key and value is tried from its maximal length down
  to one (the value class `[^>}]` contains whitespace);
* `\{?` consuming the brace is tried before not consuming it;
* the lazy value `([^>}]+?)` grows from one character until the tail
  `\}?\s*>?$` matches.
-/

/-- The tail `\}?\s*>?$` of `REP_RE`: optionally one `}`, then
whitespace, then optionally one `>`, then end of string.  (If a leading
`}` is present but the match fails after consuming it, the branch that
leaves it also fails, because none of `\s*`, `>?`, `$` can accept `}` —
so one deterministic pass is faithful.) -/
def ad4d.repTail (t : List Char) : Bool :=
  let t1 := match t with
    | c :: r => if c = '}' then r else c :: r
    | [] => ([] : List Char)
  let t2 := t1.dropWhile isPySpace
  t2 = [] || t2 = ['>']

/-- The lazy group `([^>}]+?)` followed by `\}?\s*>?$`: extend the value
one character at a time (each must be in `[^>}]`) and stop at the first
point where the tail matches; `none` if the class run is exhausted
first. -/
def ad4d.lazyValue (acc : List Char) : List Char → Option (List Char)
  | [] => none
  | c :: rest =>
    if isValChar c then
      if ad4d.repTail rest then some (acc ++ [c])
      else ad4d.lazyValue (acc ++ [c]) rest
    else none

/-- `\{?` followed by the lazy value: the greedy brace branch is tried
first, then the branch that leaves the `{` to the value class. -/
def ad4d.valuePart (s : List Char) : Option (List Char) :=
  match s with
  | c :: rest =>
    if c = '{' then
      match ad4d.lazyValue [] rest with
      | some v => some v
      | none => ad4d.lazyValue [] s
    else ad4d.lazyValue [] s
  | [] => ad4d.lazyValue [] s

/-- `\s+` between key and value, with backtracking: remainders after
consuming `k` whitespace characters for `k` from the maximal run length
down to 1 (greedy order). -/
def ad4d.spaceBranches (s : List Char) : List (List Char) :=
  let n := (s.takeWhile isPySpace).length
  (List.range n).map fun i => s.drop (n - i)

/-- First branch on which the value part succeeds. -/
def ad4d.valueOnBranches : List (List Char) → Option (List Char)
  | [] => none
  | b :: bs =>
    match ad4d.valuePart b with
    | some v => some v
    | none => ad4d.valueOnBranches bs

/-- `([A-Z0-9_]+)\s+` then the value: the key is the maximal class run
(must be non-empty and followed by whitespace), then the backtracking
`\s+`, then `\{?([^>}]+?)\}?\s*>?$`. -/
def ad4d.keyValue (s : List Char) : Option (List Char × List Char) :=
  let key := s.takeWhile isKeyChar
  let rest := s.dropWhile isKeyChar
  if key = [] then none
  else
    match rest with
    | c :: _ =>
      if isPySpace c then
        match ad4d.valueOnBranches (ad4d.spaceBranches rest) with
        | some v => some (key, v)
        | none => none
      else none
    | [] => none

/-- The optional channel group `(?:(\d)\s+)?` followed by key and value:
the channel branch (one digit, then `\s+`) is tried first; if its whole
continuation fails the group matches empty. -/
def ad4d.chanKeyValue (s : List Char) :
    Option (Option Nat × List Char × List Char) :=
  let noChan : Option (Option Nat × List Char × List Char) :=
    (ad4d.keyValue s).map fun (k, v) => (none, k, v)
  match s with
  | c :: rest =>
    if isDigitChar c then
      match rest with
      | c2 :: _ =>
        if isPySpace c2 then
          match ad4d.keyValue (rest.dropWhile isPySpace) with
          | some (k, v) => some (some (digitVal c), k, v)
          | none => noChan
        else noChan
      | [] => noChan
    else noChan
  | [] => noChan

/-- The whole of `REP_RE` against an already-stripped line:
`^<`, `\s*`, `REP`, `\s+`, then channel/key/value. -/
def ad4d.repMatch (s : List Char) :
    Option (Option Nat × List Char × List Char) :=
  match s with
  | '<' :: r1 =>
    match r1.dropWhile isPySpace with
    | 'R' :: 'E' :: 'P' :: r2 =>
      match r2 with
      | c :: _ =>
        if isPySpace c then ad4d.chanKeyValue (r2.dropWhile isPySpace)
        else none
      | [] => none
    | _ => none
  | _ => none

/-- A decoded ad4d reply frame: the dict
`{"channel": c_or_None, KEY: value}` of `parse_report_line`.  The key is
drawn from `[A-Z0-9_]+` so it can never collide with the literal dict
key `"channel"`. -/
structure Frame where
  channel : Option Nat
  key : String
  value : String
  deriving DecidableEq, Repr

/-- `ad4d.py` `parse_report_line` (lines 112–125): match `REP_RE` against
`line.strip()`; on success strip the key and value groups and convert the
channel digit with `int`. -/
def ad4d.parse_report_line (line : String) : Option Frame :=
  (ad4d.repMatch (pyStrip line).data).map fun (ch, k, v) =>
    ⟨ch, pyStrip ⟨k⟩, pyStrip ⟨v⟩⟩

example : ad4d.parse_report_line "< REP 2 FREQUENCY 518.475 >" =
    some ⟨some 2, "FREQUENCY", "518.475"⟩ := by decide

example : ad4d.parse_report_line "< REP DEVICE_ID {Unit-A} >" =
    some ⟨none, "DEVICE_ID", "Unit-A"⟩ := by decide

example : ad4d.parse_report_line "< REPORT DEVICE_NAME {Unit-A} >" = none := by
  decide

/-! ### monitor.py — the four line grammars (lines 16–19)

```
reply_channel_re = re.compile(r"< REP (\d+) (\S+)\s+(\S+) >")
reply_device_re  = re.compile(r"< REP (\S+)\s+{([^}]*)} >")
report_re        = re.compile(r"< REPORT (\S+)(?: (\S+))?(?: (.+))? >")
sample_re        = re.compile(r"< SAMPLE (\d+) ALL (.+) >")
```
all used with `re.match`: anchored at the start, trailing characters
after the pattern are allowed (none of the patterns ends in `$`).
Determinism notes mirroring each pattern:
* every `(\d+)`/`(\S+)` is a maximal class run because the character
  that follows it in the pattern (a literal space, `\s`, or `{` after
  `\s+`) cannot occur inside the class or is reachable only at the
  maximal split;
* `(.+)` (any character except newline, greedy) followed by `" >"` keeps
  its backtracking: the group is the longest newline-free prefix whose
  immediate successor characters are `" >"`.
-/

/-- Match a literal character sequence, returning the remainder. -/
def dropLit (pat s : List Char) : Option (List Char) :=
  if pat.isPrefixOf s then some (s.drop pat.length) else none

/-- Greedy `(.+)` followed by the literal `" >"`: the longest prefix of
length at least one containing no newline such that `" >"` follows it;
`none` when no such prefix exists. -/
def dotPlusSpaceGt (r : List Char) : Option (List Char) :=
  ((List.range (r.length + 1)).filter fun n =>
      1 ≤ n && (r.take n).all (fun c => !(c = '\n')) &&
        [' ', '>'].isPrefixOf (r.drop n)).getLast?.map
    fun n => r.take n

/-- `monitor.py` `reply_channel_re`: groups (channel digits, key, value). -/
def monitor.replyChannelMatch (s : List Char) :
    Option (List Char × List Char × List Char) :=
  match dropLit "< REP ".data s with
  | none => none
  | some r1 =>
    let ds := r1.takeWhile isDigitChar
    let r2 := r1.dropWhile isDigitChar
    if ds = [] then none
    else
      match r2 with
      | ' ' :: r3 =>
        let key := r3.takeWhile isNonSpace
        let r4 := r3.dropWhile isNonSpace
        if key = [] then none
        else
          match r4 with
          | c :: _ =>
            if isPySpace c then
              let r5 := r4.dropWhile isPySpace
              let v := r5.takeWhile isNonSpace
              let r6 := r5.dropWhile isNonSpace
              if v = [] then none
              else if [' ', '>'].isPrefixOf r6 then some (ds, key, v) else none
            else none
          | [] => none
      | _ => none

/-- `monitor.py` `reply_device_re`: groups (key, brace-delimited value). -/
def monitor.replyDeviceMatch (s : List Char) :
    Option (List Char × List Char) :=
  match dropLit "< REP ".data s with
  | none => none
  | some r1 =>
    let key := r1.takeWhile isNonSpace
    let r2 := r1.dropWhile isNonSpace
    if key = [] then none
    else
      match r2 with
      | c :: _ =>
        if isPySpace c then
          match r2.dropWhile isPySpace with
          | '{' :: r3 =>
            let v := r3.takeWhile (fun c => !(c = '}'))
            let r4 := r3.dropWhile (fun c => !(c = '}'))
            if ['}', ' ', '>'].isPrefixOf r4 then some (key, v) else none
          | _ => none
        else none
      | [] => none

/-- The tail `(?: (.+))? >` of `report_re` at position `s`: the optional
third group is tried first, then the bare `" >"`. -/
def monitor.reportTail3 (s : List Char) : Option (Option (List Char)) :=
  match s with
  | ' ' :: r3 =>
    match dotPlusSpaceGt r3 with
    | some g3 => some (some g3)
    | none => if [' ', '>'].isPrefixOf s then some none else none
  | _ => if [' ', '>'].isPrefixOf s then some none else none

/-- `monitor.py` `report_re`: groups (key, optional second token,
optional free-text remainder).  The optional `(?: (\S+))?` branch is
tried first; if its whole continuation fails the group matches empty
(shorter splits of the inner `(\S+)` all leave a non-space character
where the continuation needs a space, so only the maximal run is
viable). -/
def monitor.reportMatch (s : List Char) :
    Option (List Char × Option (List Char) × Option (List Char)) :=
  match dropLit "< REPORT ".data s with
  | none => none
  | some r1 =>
    let g1 := r1.takeWhile isNonSpace
    let r2 := r1.dropWhile isNonSpace
    if g1 = [] then none
    else
      let skip2 : Option (List Char × Option (List Char) × Option (List Char)) :=
        (monitor.reportTail3 r2).map fun g3 => (g1, none, g3)
      match r2 with
      | ' ' :: r3 =>
        let g2 := r3.takeWhile isNonSpace
        let r4 := r3.dropWhile isNonSpace
        if g2 = [] then skip2
        else
          match monitor.reportTail3 r4 with
          | some g3 => some (g1, some g2, g3)
          | none => skip2
      | _ => skip2

/-- `monitor.py` `sample_re`: groups (channel digits, payload). -/
def monitor.sampleMatch (s : List Char) :
    Option (List Char × List Char) :=
  match dropLit "< SAMPLE ".data s with
  | none => none
  | some r1 =>
    let ds := r1.takeWhile isDigitChar
    let r2 := r1.dropWhile isDigitChar
    if ds = [] then none
    else
      match dropLit " ALL ".data r2 with
      | none => none
      | some r3 => (dotPlusSpaceGt r3).map fun payload => (ds, payload)

/-! ### monitor.py — the Metric Sink and the decoders (lines 97–169) -/

/-- One write to the Metric Sink: `redis_client.hset(redis_key, key,
value)` together with the structured log record carrying the same
(key, value); the remaining log-only fields (`SHURE_HOST`,
`SHURE_DEVICE`, `SHURE_METRIC`, `SHURE_SIDE`) are derived metadata of the
out-of-scope logger and are elided. -/
structure Emission where
  redisKey : String
  key : String
  value : String
  deriving DecidableEq, Repr

/-- `monitor.py` `handle_response` (lines 97–137), the four-parameter
function: try `reply_device_re` first, then `reply_channel_re`; on a
match, strip the groups and emit one metric; otherwise log the unparsed
line and emit nothing (`none`). -/
def monitor.handle_response (host line : String) : Option Emission :=
  match monitor.replyDeviceMatch line.data with
  | some (k, v) => some ⟨host ++ ":device", pyStrip ⟨k⟩, pyStrip ⟨v⟩⟩
  | none =>
    match monitor.replyChannelMatch line.data with
    | some (ch, k, v) =>
      some ⟨host ++ ":channel:" ++ pyStrip ⟨ch⟩, pyStrip ⟨k⟩, pyStrip ⟨v⟩⟩
    | none => none

/-- The fixed nine-key field order of `handle_sample` (lines 144–154). -/
def monitor.sampleKeys : List String :=
  ["CHANNEL_QUALITY", "AUDIO_LED_BITMAP", "AUDIO_LEVEL_PEAK",
   "AUDIO_LEVEL_RMS", "ANTENNA_STATUS", "RSSI_LED_BITMAP_A", "RSSI_A",
   "RSSI_LED_BITMAP_B", "RSSI_B"]

/-- `monitor.py` `handle_sample` (lines 140–169): split the payload on
whitespace and emit one metric per `zip(keys, parts[:len(keys)])` pair. -/
def monitor.handle_sample (host ch_num raw : String) : List Emission :=
  let parts := pySplitWS raw
  (monitor.sampleKeys.zip (parts.take monitor.sampleKeys.length)).map
    fun kv => ⟨host ++ ":channel:" ++ ch_num, kv.1, kv.2⟩

/-- The loop body of `process_raw_data` (lines 209–226) over the parts of
`raw.split("<")`: empty parts are skipped; a part whose reassembled line
starts with `"< SAMPLE"` is handed to `handle_sample` when `sample_re`
matches and then the function returns — parts after it are not
processed; any other part goes to `handle_response`. -/
def monitor.processParts (host : String) : List String → List Emission
  | [] => []
  | p :: rest =>
    let p' := pyStrip p
    if p' = "" then monitor.processParts host rest
    else
      let line := "< " ++ p'
      if pyStartsWith line "< SAMPLE" then
        match monitor.sampleMatch line.data with
        | some (ch, payload) => monitor.handle_sample host ⟨ch⟩ ⟨payload⟩
        | none => []
      else
        (monitor.handle_response host line).toList ++
          monitor.processParts host rest

/-- `monitor.py` `process_raw_data` (lines 209–226); the received bytes
are modelled post-`decode("utf-8", errors="ignore")` as a string. -/
def monitor.process_raw_data (host raw : String) : List Emission :=
  monitor.processParts host (pySplitOn raw "<")

/-! ### monitor.py — the passive-streaming ingestion loop (lines 229–262) -/

/-- What `run_passive_monitor` does with one complete, already-stripped
line pulled out of the buffer. -/
inductive PassiveOutcome where
  /-- the line starts with `"< SAMPLE"`: `handle_sample` runs when
  `sample_re` matches (emitting the listed metrics) and nothing at all
  happens when it does not. -/
  | sample (ems : List Emission)
  /-- the line matches `report_re`.  The source then executes
  `handle_response(host, redis_client, *match.groups(), device_type)`
  (monitor.py line 260): `report_re` has three groups, so the call passes
  six positional arguments to `handle_response`, which is defined with
  exactly four positional parameters (monitor.py line 97).  Python raises
  `TypeError` before the handler body runs; nothing in
  `run_passive_monitor` catches it, so it propagates out of the ingestion
  loop. -/
  | typeError
  /-- the line matches neither grammar: logged and discarded. -/
  | logged
  deriving DecidableEq, Repr

/-- The per-line dispatch of `run_passive_monitor` (lines 251–262). -/
def monitor.passive_process_line (host line : String) : PassiveOutcome :=
  if pyStartsWith line "< SAMPLE" then
    match monitor.sampleMatch line.data with
    | some (ch, payload) => .sample (monitor.handle_sample host ⟨ch⟩ ⟨payload⟩)
    | none => .sample []
  else
    match monitor.reportMatch line.data with
    | some _ => .typeError
    | none => .logged

/-- The buffered line reassembly of `run_passive_monitor` (lines
247–249): repeatedly split the buffer at the first newline; the complete
lines are decoded and stripped, the trailing partial segment stays
buffered. -/
def monitor.passive_extract (buffer : String) : List String × String :=
  let segs := pySplitOn buffer "\n"
  (segs.dropLast.map pyStrip, segs.getLastD "")

example : monitor.handle_response "h" "< REP 1 FREQUENCY 500.000 >" =
    some ⟨"h:channel:1", "FREQUENCY", "500.000"⟩ := by decide

example : monitor.handle_response "h" "< REP DEVICE_NAME {Unit-A} >" =
    some ⟨"h:device", "DEVICE_NAME", "Unit-A"⟩ := by decide

example : monitor.passive_process_line "h" "< REPORT DEVICE_NAME {Unit-A} >" =
    .typeError := by decide

example : monitor.sampleMatch "< SAMPLE 1 ALL 5 >".data =
    some ("1".data, "5".data) := by decide

/-! ### send_command (ad4d.py 128–215, p10t.py 94–185)

The socket interaction is abstracted into a `NetBehavior`: either the
`try` block raises (connect/send/recv failure — `raiseExc` carries
`str(e)`), or the connection succeeds and `recv raw` carries
`b"".join(chunks).decode("utf-8", errors="ignore")`, the bytes drained
within the bounded read window (per-recv timeouts end the drain loop
inside the source, so they are part of `recv`, not an exception).
Output rendering (`format_output` on non-empty data) is an external
collaborator per the design's scope; results that the source returns as
`format_output(x, output_format)` are kept symbolic as
`formatted… x fmt`, except `format_output({}, fmt)`, which is evaluated
(`format_output_empty`). -/

inductive NetBehavior where
  | raiseExc (msg : String)
  | recv (raw : String)

/-- `format_output({}, fmt)` of either CLI: `json.dumps({}, indent=2)`,
`pprint.pformat({}, …)` and `str({})` all render `"{}"`; the text branch
returns `"(no data)"` for an empty dict. -/
def format_output_empty (fmt : String) : String :=
  if fmt = "json" then "{}"
  else if fmt = "pretty" then "{}"
  else if fmt = "raw" then "{}"
  else "(no data)"

/-- The `f"(error: {e})"` result of the outer `except Exception` handler
of both CLIs. -/
def errString (m : String) : String := "(error: " ++ m ++ ")"

/-- `ad4d.py` lines 164–168: split the drained bytes on `"< REP "`,
keep the parts that are non-blank and free of the `"ERR"` error marker,
and reassemble each into a candidate frame. -/
def ad4d.extract_lines (raw : String) : List String :=
  ((pySplitOn raw "< REP ").filter fun part =>
      (!decide (pyStrip part = "")) && !(pyContains "ERR" part)).map
    fun part => "< REP " ++ pyStrip part

/-- The `f"{channel} {keyname}"` / bare-key request address a parsed
frame is matched against (ad4d.py lines 197–199). -/
def ad4d.match_key (f : Frame) : String :=
  match f.channel with
  | some c => toString c ++ " " ++ f.key
  | none => f.key

/-! #### The bulk merge (ad4d.py 170–189, p10t.py 138–159, frame level)

Both CLIs fold the parsed frames into one snapshot with the same loop:
pop the channel; a device-scoped frame updates the top-level mapping, a
channel-scoped frame updates (creating on first use) its channel's
sub-mapping.  Python dicts are modelled extensionally as functions, dict
`update` as pointwise overwrite of one key. -/

/-- One-key overwrite of a string-keyed mapping (`dict.update` with a
single-key dict). -/
def updateD (d : String → Option String) (k v : String) :
    String → Option String :=
  fun q => if q = k then some v else d q

/-- A bulk Snapshot: the top-level device mapping plus the per-channel
sub-mappings (`none` = channel absent from the dict). -/
structure Snapshot where
  device : String → Option String
  chans : Nat → Option (String → Option String)

def Snapshot.empty : Snapshot :=
  ⟨fun _ => none, fun _ => none⟩

/-- One iteration of the merge loop: `ch = entry.pop("channel");
merged.update(entry)` for a device frame, `merged.setdefault(ch,
{}).update(entry)`-style update for a channel frame. -/
def mergeFrame (s : Snapshot) (f : Frame) : Snapshot :=
  match f.channel with
  | none => ⟨updateD s.device f.key f.value, s.chans⟩
  | some c =>
    ⟨s.device,
     fun q =>
       if q = c then
         some (updateD ((s.chans c).getD fun _ => none) f.key f.value)
       else s.chans q⟩

/-- The whole merge loop over the parsed frames in arrival order. -/
def mergeFrames (fs : List Frame) : Snapshot :=
  fs.foldl mergeFrame Snapshot.empty

/-- What `ad4d.py` `send_command` returns: Python `None`, a string, or a
`format_output(x, fmt)` rendering kept symbolic. -/
inductive ResultA where
  | pyNone
  | str (s : String)
  | formattedFrame (f : Frame) (fmt : String)
  | formattedSnap (snap : Snapshot) (fmt : String)

/-- The single-reply scan (ad4d.py 191–207): first parsed frame whose
address matches `expect_key` (or any frame when `expect_key` is `None`)
decides the result; `SET` commands return `None` without waiting for a
value.  (`command and command.startswith("SET")`: an empty or `None`
command fails the test either way.) -/
def ad4d.match_loop (command expect : Option String) (fmt : String)
    (bulk : Bool) : List String → Option ResultA
  | [] => none
  | line :: rest =>
    match ad4d.parse_report_line line with
    | none => ad4d.match_loop command expect fmt bulk rest
    | some f =>
      if expect = none || expect = some (ad4d.match_key f) then
        if (match command with
            | some c => pyStartsWith c "SET"
            | none => false) then
          some .pyNone
        else if bulk || !decide (fmt = "text") then
          some (.formattedFrame f fmt)
        else some (.str f.value)
      else ad4d.match_loop command expect fmt bulk rest

/-- `ad4d.py` `send_command` after the bytes have been drained
(lines 162–213): extraction, then the bulk merge or the single-reply
scan, with `format_output({}, fmt)`/`None` when nothing matched. -/
def ad4d.process (command expect : Option String) (fmt : String)
    (bulk : Bool) (raw : String) : ResultA :=
  let lines := ad4d.extract_lines raw
  if bulk then
    .formattedSnap (mergeFrames (lines.filterMap ad4d.parse_report_line)) fmt
  else
    match ad4d.match_loop command expect fmt bulk lines with
    | some r => r
    | none =>
      if bulk || !decide (fmt = "text") then .str (format_output_empty fmt)
      else .pyNone

/-- The body of `ad4d.py` `send_command` inside the outer `try`:
a `.error` is a Python exception carrying `str(e)`.  The ad4d body
cannot raise after a successful drain (its parsed dicts always hold one
uppercase key besides `"channel"`), so `recv` always succeeds. -/
def ad4d.send_body (command expect : Option String) (fmt : String)
    (bulk : Bool) (beh : NetBehavior) : Except String ResultA :=
  match beh with
  | .raiseExc m => .error m
  | .recv raw => .ok (ad4d.process command expect fmt bulk raw)

/-- `ad4d.py` `send_command` (lines 128–215): the body wrapped in
`except Exception as e: return f"(error: {e})"`. -/
def ad4d.send_command (command expect : Option String) (fmt : String)
    (bulk : Bool) (beh : NetBehavior) : ResultA :=
  match ad4d.send_body command expect fmt bulk beh with
  | .ok r => r
  | .error m => .str (errString m)

/-! ### p10t.py — parse_report_line and send_command (lines 79–185)

`p10t.py` builds its parsed frame as a Python dict literal
`{"channel": …, parts[i]: …}`, and the token `parts[i]` can itself be the
string `"channel"`, collapsing the literal to a one-key dict.  To stay
faithful to that (and to the `next(k for k in parsed if k != "channel")`
lookups that raise `StopIteration` on such a dict), the p10t frames are
modelled as insertion-ordered association lists with Python-dict update
semantics rather than as structured records. -/

/-- A Python value as it occurs in a p10t parsed frame: `None`, a
string, or an int (the channel number). -/
inductive PyVal where
  | none
  | str (s : String)
  | int (n : Nat)
  deriving DecidableEq, Repr

/-- Insertion-ordered dict write: an existing key keeps its position and
gets the new value, a new key is appended (Python dict semantics). -/
def assocSet {K V : Type} [DecidableEq K] :
    List (K × V) → K → V → List (K × V)
  | [], k, v => [(k, v)]
  | (k', v') :: t, k, v =>
    if k' = k then (k, v) :: t else (k', v') :: assocSet t k v

/-- Dict lookup. -/
def assocGet {K V : Type} [DecidableEq K] (d : List (K × V)) (k : K) :
    Option V :=
  (d.find? fun p => decide (p.1 = k)).map fun p => p.2

/-- A p10t parsed frame: the dict produced by `parse_report_line`. -/
abbrev PyDict := List (String × PyVal)

/-- `p10t.py` `parse_report_line` (lines 79–91): strip `<`, `>` and
spaces from both ends, split on whitespace; `parts[0]` must be `REPORT`
and there must be at least three tokens; `parts[1] ∈ {"1","2"}` selects
the channel shape. -/
def p10t.parse_report_line (line : String) : Option PyDict :=
  let parts := pySplitWS (pyStripChars "<> ".data line)
  if parts.length < 3 then none
  else if !decide (parts.getD 0 "" = "REPORT") then none
  else if parts.getD 1 "" ∈ (["1", "2"] : List String) then
    some (assocSet
      (assocSet [] "channel" (PyVal.int (natOfDigits (parts.getD 1 "").data)))
      (parts.getD 2 "")
      (if 3 < parts.length then PyVal.str (parts.getD 3 "") else PyVal.none))
  else
    some (assocSet (assocSet [] "channel" PyVal.none)
      (parts.getD 1 "")
      (if 2 < parts.length then PyVal.str (parts.getD 2 "") else PyVal.none))

/-- `p10t.py` lines 132–136: split the drained bytes on `"< REPORT "`
and reassemble the non-blank parts.  Unlike ad4d, there is no error
marker ("ERR") filter. -/
def p10t.extract_lines (raw : String) : List String :=
  ((pySplitOn raw "< REPORT ").filter fun part =>
      !decide (pyStrip part = "")).map
    fun part => "< REPORT " ++ pyStrip part

/-- First key other than `"channel"` in insertion order
(`next(k for k in parsed if k != "channel")`). -/
def firstNonChannelKey (d : PyDict) : Option String :=
  (d.find? fun p => !decide (p.1 = "channel")).map fun p => p.1

/-- First value whose key is not `"channel"` in insertion order
(`next(v for k, v in parsed.items() if k != "channel")`). -/
def firstNonChannelVal (d : PyDict) : Option PyVal :=
  (d.find? fun p => !decide (p.1 = "channel")).map fun p => p.2

/-- Python f-string rendering of a value. -/
def pyValStr : PyVal → String
  | .none => "None"
  | .str s => s
  | .int n => toString n

/-- `match_key` computation of `p10t.py` (lines 167–170): on a dict whose
`"channel"` is not `None`, `f"{parsed['channel']} {next(…)}"`, otherwise
the first non-channel key; `.error` models the Python exception the
statement raises (`StopIteration` renders as an empty `str(e)`; a missing
`"channel"` key would be a `KeyError`, unreachable because every parsed
dict contains it). -/
def p10t.match_key_of (d : PyDict) : Except String String :=
  match assocGet d "channel" with
  | Option.none => .error "'channel'"
  | some PyVal.none =>
    match firstNonChannelKey d with
    | some k => .ok k
    | Option.none => .error ""
  | some v =>
    match firstNonChannelKey d with
    | some k => .ok (pyValStr v ++ " " ++ k)
    | Option.none => .error ""

/-- The channel sub-dict or leaf value stored under a top-level key of
the p10t bulk snapshot. -/
inductive SnapVal where
  | leaf (v : PyVal)
  | sub (d : PyDict)
  deriving DecidableEq, Repr

/-- The p10t bulk snapshot: a Python dict whose keys are the device-level
key strings and the channel values (ints normally; other values only via
degenerate collapsed frames). -/
abbrev P10Snapshot := List (PyVal × SnapVal)

/-- One iteration of the p10t merge loop (lines 149–158):
`ch = entry.pop("channel")`; a `None` channel folds the remaining pairs
into the top level, otherwise they fold into the channel's sub-dict
(created on first use).  `.error` models the `AttributeError` raised by
`merged[ch].update(...)` when a degenerate earlier frame left a
non-dict at that key (message abstracted; it only feeds
`f"(error: {e})"`). -/
def p10t.merge_entry (m : P10Snapshot) (entry : PyDict) :
    Except String P10Snapshot :=
  match assocGet entry "channel" with
  | Option.none => .error "'channel'"
  | some ch =>
    let rest := entry.filter fun p => !decide (p.1 = "channel")
    match ch with
    | PyVal.none =>
      .ok (rest.foldl
        (fun acc p => assocSet acc (PyVal.str p.1) (SnapVal.leaf p.2)) m)
    | c =>
      match assocGet m c with
      | some (SnapVal.leaf _) => .error "'str' object has no attribute 'update'"
      | some (SnapVal.sub d) =>
        .ok (assocSet m c
          (SnapVal.sub (rest.foldl (fun acc p => assocSet acc p.1 p.2) d)))
      | Option.none =>
        .ok (assocSet m c
          (SnapVal.sub (rest.foldl (fun acc p => assocSet acc p.1 p.2) [])))

/-- The merge loop over all parsed entries in arrival order. -/
def p10t.merge_all : P10Snapshot → List PyDict → Except String P10Snapshot
  | m, [] => .ok m
  | m, e :: t =>
    match p10t.merge_entry m e with
    | .ok m' => p10t.merge_all m' t
    | .error msg => .error msg

/-- What `p10t.py` `send_command` returns. -/
inductive ResultP where
  | pyNone
  | str (s : String)
  /-- a non-string parsed value returned verbatim — unreachable, values
  parsed from a report line are strings or `None`. -/
  | int (n : Nat)
  | formattedDict (d : PyDict) (fmt : String)
  | formattedSnap (snap : P10Snapshot) (fmt : String)
  deriving DecidableEq, Repr

/-- The single-reply scan of `p10t.py` (lines 161–176): first parsed
frame whose match key equals `expect_key` decides the result (a `None`
`expect_key` matches nothing); text format returns the first non-channel
value object itself. -/
def p10t.match_loop (expect : Option String) (fmt : String) (bulk : Bool) :
    List String → Except String (Option ResultP)
  | [] => .ok Option.none
  | line :: rest =>
    match p10t.parse_report_line line with
    | Option.none => p10t.match_loop expect fmt bulk rest
    | some d =>
      match p10t.match_key_of d with
      | .error m => .error m
      | .ok mk =>
        if some mk = expect then
          if bulk || !decide (fmt = "text") then
            .ok (some (.formattedDict d fmt))
          else
            match firstNonChannelVal d with
            | some PyVal.none => .ok (some .pyNone)
            | some (PyVal.str s) => .ok (some (.str s))
            | some (PyVal.int n) => .ok (some (.int n))
            | Option.none => .error ""
        else p10t.match_loop expect fmt bulk rest

/-- `p10t.py` `send_command` after the bytes have been drained
(lines 130–181): extraction, then the bulk merge or the single-reply
scan; no match yields `format_output({}, fmt)` or the `"(no match)"`
string.  (The inner `except socket.timeout: return "(timeout)"` at line
182 is unreachable: the only socket call it guards is the recv loop,
whose timeouts are already caught and end the drain.) -/
def p10t.process (expect : Option String) (fmt : String) (bulk : Bool)
    (raw : String) : Except String ResultP :=
  let lines := p10t.extract_lines raw
  if bulk then
    match p10t.merge_all [] (lines.filterMap p10t.parse_report_line) with
    | .ok snap => .ok (.formattedSnap snap fmt)
    | .error m => .error m
  else
    match p10t.match_loop expect fmt bulk lines with
    | .error m => .error m
    | .ok (some r) => .ok r
    | .ok Option.none =>
      .ok (if bulk || !decide (fmt = "text") then
             .str (format_output_empty fmt)
           else .str "(no match)")

/-- The body of `p10t.py` `send_command` inside the outer `try`. -/
def p10t.send_body (expect : Option String) (fmt : String) (bulk : Bool)
    (beh : NetBehavior) : Except String ResultP :=
  match beh with
  | .raiseExc m => .error m
  | .recv raw => p10t.process expect fmt bulk raw

/-- `p10t.py` `send_command` (lines 94–185): the body wrapped in
`except Exception as e: return f"(error: {e})"`. -/
def p10t.send_command (expect : Option String) (fmt : String) (bulk : Bool)
    (beh : NetBehavior) : ResultP :=
  match p10t.send_body expect fmt bulk beh with
  | .ok r => r
  | .error m => .str (errString m)

example : p10t.parse_report_line "< REPORT DEVICE_NAME {Unit-A} >" =
    some [("channel", PyVal.none), ("DEVICE_NAME", PyVal.str "{Unit-A}")] := by
  decide

example : p10t.parse_report_line "< REPORT 2 FREQUENCY 518.475 >" =
    some [("channel", PyVal.int 2), ("FREQUENCY", PyVal.str "518.475")] := by
  decide

example :
    p10t.merge_all []
      ((p10t.extract_lines "< REPORT ERR BADKEY >").filterMap
        p10t.parse_report_line) =
    .ok [(PyVal.str "ERR", SnapVal.leaf (PyVal.str "BADKEY"))] := by
  rfl

/-- The addressing unit of a parsed frame: its (scope, key) pair. -/
def Frame.addr (f : Frame) : Option Nat × String := (f.channel, f.key)

/-- Reformulation of what `process_raw_data` forwards, used to state its
early-return behaviour: the non-empty parts before the first
`SAMPLE`-prefixed part each contribute their `handle_response` emission,
the first `SAMPLE`-prefixed part (if any) contributes its
`handle_sample` metrics, and everything after it contributes nothing. -/
def monitor.emissionsUntilFirstSample (host : String) (parts : List String) :
    List Emission :=
  let ps := (parts.map pyStrip).filter fun p => !decide (p = "")
  let pre := ps.takeWhile fun p => !pyStartsWith ("< " ++ p) "< SAMPLE"
  (pre.map fun p => (monitor.handle_response host ("< " ++ p)).toList).flatten ++
    (match ps.drop pre.length with
     | [] => []
     | sp :: _ =>
       match monitor.sampleMatch ("< " ++ sp).data with
       | some (ch, payload) => monitor.handle_sample host ⟨ch⟩ ⟨payload⟩
       | none => [])

/-! ## Theorems -/

/-- `String.append` on explicit character lists. -/
theorem strMkAppend (a b : List Char) : (⟨a⟩ : String) ++ ⟨b⟩ = ⟨a ++ b⟩ := rfl

/-- C9: for the multi-channel family, decoding the input line
`< REP 2 FREQUENCY 518.475 >` yields scope = Channel 2, key `FREQUENCY`
and value `"518.475"`. -/
theorem c9_rep_scenario :
    ad4d.parse_report_line "< REP 2 FREQUENCY 518.475 >" =
      some ⟨some 2, "FREQUENCY", "518.475"⟩ := by decide

/-- C1: `< REPORT DEVICE_NAME {Unit-A} >` is a complete
newline-terminated line of the report grammar, yet the passive monitor's
processing of it raises `TypeError` out of the ingestion loop — the
`handle_response` call at monitor.py:260 passes the six positional
arguments `host, redis_client, *match.groups(), device_type` to the
four-parameter `handle_response` of monitor.py:97 — instead of
forwarding the decoded triple to the sink. -/
theorem c1_passive_report_raises :
    monitor.passive_extract "< REPORT DEVICE_NAME {Unit-A} >\nrest" =
      (["< REPORT DEVICE_NAME {Unit-A} >"], "rest")
    ∧ (monitor.reportMatch "< REPORT DEVICE_NAME {Unit-A} >".data).isSome = true
    ∧ monitor.passive_process_line "host" "< REPORT DEVICE_NAME {Unit-A} >" =
        .typeError := by decide

/-- C2 counterexample: `RSSI` is a channel-level read-only key of the
multi-channel family, yet a SET attempt on it is not rejected: `main`
reaches the `send_command` call, whose first statement opens a socket. -/
theorem c2_cex_channel_readonly_reaches_network :
    "RSSI" ∈ ad4d.CHANNEL_GET_ONLY_KEYS
    ∧ ad4d.set_main (some "1") "RSSI" (some "0") = .send "SET 1 RSSI 0" := by
  decide

/-- C2 (amended): for every device-level read-only key of either family,
a SET attempt exits with the read-only error strictly before
`send_command` — hence before any network I/O — whatever the channel
argument and value.  (Channel-level read-only keys of the multi-channel
family are not checked; see the counterexample.) -/
theorem c2_device_readonly_rejected_before_io :
    (∀ k ∈ ad4d.DEVICE_GET_ONLY_KEYS, ∀ ch v,
        ad4d.set_main ch k v = .exitReadOnly)
    ∧ (∀ k ∈ p10t.DEVICE_GET_ONLY_KEYS, ∀ ch v,
        p10t.set_main ch k v = .exitReadOnly) := by
  constructor
  · intro k hk
    fin_cases hk <;> intro ch v <;> rfl
  · intro k hk
    fin_cases hk <;> intro ch v <;> rfl

/-- Witness for C2: two concrete device-level read-only SET attempts,
one per family, rejected before any network action. -/
theorem c2_device_readonly_witness :
    ad4d.set_main none "MODEL" (some "x") = .exitReadOnly
    ∧ p10t.set_main none "DEVICE_NAME" (some "x") = .exitReadOnly :=
  ⟨c2_device_readonly_rejected_before_io.1 "MODEL" (by decide) none (some "x"),
   c2_device_readonly_rejected_before_io.2 "DEVICE_NAME" (by decide) none
     (some "x")⟩

/-- C3 counterexample: the point-to-point parser keeps the braces —
`< REPORT DEVICE_NAME {Unit-A} >` decodes to scope = Device,
key `DEVICE_NAME`, value `"{Unit-A}"`, not `"Unit-A"`. -/
theorem c3_cex_braces_not_stripped :
    p10t.parse_report_line "< REPORT DEVICE_NAME {Unit-A} >" =
      some [("channel", PyVal.none), ("DEVICE_NAME", PyVal.str "{Unit-A}")]
    ∧ ¬ (("{Unit-A}" : String) = "Unit-A") := by decide

/-- C4 counterexample: the point-to-point family's extraction has no
error-marker filter, so a reply frame containing `ERR` is parsed and
merged into the bulk Snapshot, surfaced to the caller under the key
`"ERR"` — it is not dropped. -/
theorem c4_cex_p10t_err_frame_merged :
    pyContains "ERR" "< REPORT ERR BADKEY >" = true
    ∧ p10t.send_command none "text" true (.recv "< REPORT ERR BADKEY >") =
        .formattedSnap [(PyVal.str "ERR", SnapVal.leaf (PyVal.str "BADKEY"))]
          "text" := by
  exact ⟨by decide, by decide⟩

/-- C5 counterexample: in a chunk holding a reply, then a SAMPLE frame,
then another parseable reply, the polling monitor forwards only the
first reply and the sample metric; the reply after the SAMPLE frame is
decodable (second conjunct) but never forwarded, because
`process_raw_data` returns at the first SAMPLE part. -/
theorem c5_cex_frames_after_sample_not_forwarded :
    monitor.process_raw_data "h"
        "< REP 1 FREQUENCY 500.000 >< SAMPLE 1 ALL 5 >< REP 1 AUDIO_GAIN 10 >" =
      [⟨"h:channel:1", "FREQUENCY", "500.000"⟩,
       ⟨"h:channel:1", "CHANNEL_QUALITY", "5"⟩]
    ∧ monitor.handle_response "h" "< REP 1 AUDIO_GAIN 10 >" =
        some ⟨"h:channel:1", "AUDIO_GAIN", "10"⟩ := by decide

/-- C10: `send_command` of either CLI is total at its public interface:
whatever the arguments and however the socket behaves, the body's result
is returned as a plain value, and every Python exception `m` raised
inside the `try` block — connect/send/recv failures included — is
converted into the formatted string `(error: m)` rather than propagated;
in particular a connect-time exception yields exactly that string. -/
theorem c10_send_command_total :
    (∀ command expect fmt bulk beh m,
        ad4d.send_body command expect fmt bulk beh = .error m →
        ad4d.send_command command expect fmt bulk beh = .str (errString m))
    ∧ (∀ command expect fmt bulk beh r,
        ad4d.send_body command expect fmt bulk beh = .ok r →
        ad4d.send_command command expect fmt bulk beh = r)
    ∧ (∀ expect fmt bulk beh m,
        p10t.send_body expect fmt bulk beh = .error m →
        p10t.send_command expect fmt bulk beh = .str (errString m))
    ∧ (∀ expect fmt bulk beh r,
        p10t.send_body expect fmt bulk beh = .ok r →
        p10t.send_command expect fmt bulk beh = r)
    ∧ (∀ command expect fmt bulk m,
        ad4d.send_command command expect fmt bulk (.raiseExc m) =
          .str (errString m))
    ∧ (∀ expect fmt bulk m,
        p10t.send_command expect fmt bulk (.raiseExc m) =
          .str (errString m)) := by
  refine ⟨?_, ?_, ?_, ?_, ?_, ?_⟩
  · intro command expect fmt bulk beh m h
    simp [ad4d.send_command, h]
  · intro command expect fmt bulk beh r h
    simp [ad4d.send_command, h]
  · intro expect fmt bulk beh m h
    simp [p10t.send_command, h]
  · intro expect fmt bulk beh r h
    simp [p10t.send_command, h]
  · intro command expect fmt bulk m
    rfl
  · intro expect fmt bulk m
    rfl

/-- Witness for C10: a concrete connect-refused behaviour on each CLI,
with the body's error hypothesis discharged by `rfl`. -/
theorem c10_send_command_total_witness :
    ad4d.send_command none none "text" false (.raiseExc "Connection refused") =
      .str "(error: Connection refused)"
    ∧ p10t.send_command none "text" false (.raiseExc "timed out") =
      .str "(error: timed out)" :=
  ⟨c10_send_command_total.1 none none "text" false
      (.raiseExc "Connection refused") "Connection refused" rfl,
   c10_send_command_total.2.2.1 none "text" false (.raiseExc "timed out")
      "timed out" rfl⟩

/-- Mapping first components over a zip truncates the left list to the
right list's length. -/
theorem zipMapFst {α β : Type} :
    ∀ (a : List α) (b : List β), (a.zip b).map Prod.fst = a.take b.length
  | [], _ => by simp
  | _ :: _, [] => by simp
  | x :: a, y :: b => by simp [zipMapFst a b]

/-- Mapping second components over a zip truncates the right list to the
left list's length. -/
theorem zipMapSnd {α β : Type} :
    ∀ (a : List α) (b : List β), (a.zip b).map Prod.snd = b.take a.length
  | [], _ => by simp
  | _ :: _, [] => by simp
  | x :: a, y :: b => by simp [zipMapSnd a b]

/-- C7: `handle_sample` is total (it is a plain zip, so no payload can
make it raise) and emits `min 9 n` metrics for an `n`-field payload: the
fixed nine keys in order when at least nine fields are present, and one
metric per present field — key prefix in the same fixed order, values the
fields themselves — when fewer are. -/
theorem c7_handle_sample_nine_fields :
    ∀ host ch raw,
      monitor.sampleKeys.length = 9
      ∧ (monitor.handle_sample host ch raw).length =
          min 9 (pySplitWS raw).length
      ∧ (monitor.handle_sample host ch raw).map Emission.key =
          monitor.sampleKeys.take (pySplitWS raw).length
      ∧ (monitor.handle_sample host ch raw).map Emission.value =
          (pySplitWS raw).take 9 := by
  intro host ch raw
  have hk : monitor.sampleKeys.length = 9 := rfl
  refine ⟨rfl, ?_, ?_, ?_⟩
  · simp [monitor.handle_sample, hk]
  · have h := zipMapFst monitor.sampleKeys
      ((pySplitWS raw).take monitor.sampleKeys.length)
    simp only [monitor.handle_sample, List.map_map]
    have hcomp :
        (Emission.key ∘ fun kv : String × String =>
            Emission.mk (host ++ ":channel:" ++ ch) kv.1 kv.2) = Prod.fst := by
      funext kv
      rfl
    rw [hcomp, h, List.length_take, hk]
    rcases Nat.le_total (pySplitWS raw).length 9 with hle | hle
    · rw [Nat.min_eq_right hle]
    · rw [Nat.min_eq_left hle]
      rw [List.take_of_length_le hk.le,
        List.take_of_length_le (by rw [hk]; exact hle)]
  · have h := zipMapSnd monitor.sampleKeys
      ((pySplitWS raw).take monitor.sampleKeys.length)
    simp only [monitor.handle_sample, List.map_map]
    have hcomp :
        (Emission.value ∘ fun kv : String × String =>
            Emission.mk (host ++ ":channel:" ++ ch) kv.1 kv.2) = Prod.snd := by
      funext kv
      rfl
    rw [hcomp, h]
    simp [hk, List.take_take]

/-! ### C6 — the bulk merge -/

/-- Overwrites of distinct keys commute. -/
theorem updateD_comm (d : String → Option String) {k1 k2 : String}
    (v1 v2 : String) (h : k1 ≠ k2) :
    updateD (updateD d k1 v1) k2 v2 = updateD (updateD d k2 v2) k1 v1 := by
  funext q
  simp only [updateD]
  by_cases h1 : q = k2
  · by_cases h2 : q = k1
    · exact absurd (h2.symm.trans h1) h
    · simp [h1, h2, Ne.symm h]
  · by_cases h2 : q = k1
    · simp [h1, h2, h]
    · simp [h1, h2]

/-- Snapshots with equal fields are equal. -/
theorem Snapshot.ext' {s t : Snapshot} (hd : s.device = t.device)
    (hc : s.chans = t.chans) : s = t := by
  cases s
  cases t
  simp_all

/-- Merging two frames with distinct (scope, key) addresses commutes. -/
theorem mergeFrame_comm {a b : Frame} (h : a.addr ≠ b.addr) (s : Snapshot) :
    mergeFrame (mergeFrame s a) b = mergeFrame (mergeFrame s b) a := by
  obtain ⟨ca, ka, va⟩ := a
  obtain ⟨cb, kb, vb⟩ := b
  match ca, cb with
  | none, none =>
    have hk : ka ≠ kb := by
      intro e
      exact h (by simp [Frame.addr, e])
    apply Snapshot.ext'
    · exact updateD_comm s.device va vb hk
    · rfl
  | none, some c => rfl
  | some c, none => rfl
  | some c, some c' =>
    by_cases hc : c = c'
    · subst hc
      have hk : ka ≠ kb := by
        intro e
        exact h (by simp [Frame.addr, e])
      apply Snapshot.ext'
      · rfl
      · funext q
        by_cases hq : q = c
        · subst hq
          simp [mergeFrame, updateD_comm _ va vb hk]
        · simp [mergeFrame, hq]
    · apply Snapshot.ext'
      · rfl
      · funext q
        by_cases hq : q = c
        · subst hq
          simp [mergeFrame, hc, Ne.symm hc]
        · by_cases hq' : q = c'
          · subst hq'
            simp [mergeFrame, hq, hc, Ne.symm hc]
          · simp [mergeFrame, hq, hq']

/-- Invariant carried through the merge fold for the absence property. -/
theorem merge_absent_aux (k : String) :
    ∀ (l : List Frame) (s : Snapshot),
      (∀ f ∈ l, f.key ≠ k) →
      s.device k = none →
      (∀ c d, s.chans c = some d → d k = none) →
      (List.foldl mergeFrame s l).device k = none
      ∧ ∀ c d, (List.foldl mergeFrame s l).chans c = some d → d k = none
  | [], _, _, hdev, hch => ⟨hdev, hch⟩
  | f :: t, s, hl, hdev, hch => by
    have hf : f.key ≠ k := hl f (by simp)
    have ht : ∀ g ∈ t, g.key ≠ k := fun g hg => hl g (by simp [hg])
    have step_dev : (mergeFrame s f).device k = none := by
      obtain ⟨cf, kf, vf⟩ := f
      match cf with
      | none =>
        simp only [mergeFrame, updateD]
        rw [if_neg (Ne.symm hf)]
        exact hdev
      | some c => exact hdev
    have step_ch : ∀ c d, (mergeFrame s f).chans c = some d → d k = none := by
      obtain ⟨cf, kf, vf⟩ := f
      match cf with
      | none => exact hch
      | some c0 =>
        intro c d hcd
        simp only [mergeFrame] at hcd
        by_cases hc : c = c0
        · rw [if_pos hc] at hcd
          have hd := (Option.some.injEq _ _).mp hcd
          rw [← hd]
          simp only [updateD]
          rw [if_neg (Ne.symm hf)]
          match hs : s.chans c0 with
          | none => simp [hs]
          | some d0 => simp [hs, hch c0 d0 hs]
        · rw [if_neg hc] at hcd
          exact hch c d hcd
    exact merge_absent_aux k t (mergeFrame s f) ht step_dev step_ch

/-- C6 counterexample: two parsed reply frames sharing the address
`DEVICE_ID` with different values form a multiset whose two arrival
orders merge to different Snapshots — the later frame wins — so the
merge is not order-independent on arbitrary multisets. -/
theorem c6_cex_merge_order_dependent :
    ad4d.parse_report_line "< REP DEVICE_ID {a} >" =
      some ⟨none, "DEVICE_ID", "a"⟩
    ∧ ad4d.parse_report_line "< REP DEVICE_ID {b} >" =
      some ⟨none, "DEVICE_ID", "b"⟩
    ∧ (mergeFrames [⟨none, "DEVICE_ID", "a"⟩, ⟨none, "DEVICE_ID", "b"⟩]).device
        "DEVICE_ID" = some "b"
    ∧ (mergeFrames [⟨none, "DEVICE_ID", "b"⟩, ⟨none, "DEVICE_ID", "a"⟩]).device
        "DEVICE_ID" = some "a"
    ∧ ¬ (mergeFrames [⟨none, "DEVICE_ID", "a"⟩, ⟨none, "DEVICE_ID", "b"⟩] =
          mergeFrames [⟨none, "DEVICE_ID", "b"⟩, ⟨none, "DEVICE_ID", "a"⟩]) := by
  refine ⟨by decide, by decide, rfl, rfl, ?_⟩
  intro h
  have hb : (mergeFrames
      [⟨none, "DEVICE_ID", "a"⟩, ⟨none, "DEVICE_ID", "b"⟩]).device "DEVICE_ID" =
      some "b" := rfl
  have ha : (mergeFrames
      [⟨none, "DEVICE_ID", "b"⟩, ⟨none, "DEVICE_ID", "a"⟩]).device "DEVICE_ID" =
      some "a" := rfl
  rw [h, ha] at hb
  exact absurd hb (by decide)

/-- C6 (amended): on multisets of parsed reply frames whose (scope, key)
addresses are pairwise distinct — the situation the bulk query produces,
one reply per requested address — the merge is order-independent: any
arrival order folds to the same Snapshot.  And a key absent from every
frame is absent from the Snapshot (`none`, not an empty value), at the
device level and inside every channel sub-mapping. -/
theorem c6_merge_order_independent :
    (∀ l₁ l₂ : List Frame, l₁.Perm l₂ →
        l₁.Pairwise (fun a b => a.addr ≠ b.addr) →
        mergeFrames l₁ = mergeFrames l₂)
    ∧ (∀ (l : List Frame) (k : String), (∀ f ∈ l, f.key ≠ k) →
        (mergeFrames l).device k = none
        ∧ ∀ c d, (mergeFrames l).chans c = some d → d k = none) := by
  constructor
  · intro l₁ l₂ hp hd
    unfold mergeFrames
    apply hp.foldl_eq'
    intro x hx y hy z
    by_cases hxy : x = y
    · subst hxy
      rfl
    · have hsymm : Symmetric (fun a b : Frame => a.addr ≠ b.addr) :=
        fun a b hab e => hab e.symm
      exact mergeFrame_comm (hd.forall hsymm hx hy hxy) z
  · intro l k hl
    refine merge_absent_aux k l Snapshot.empty hl rfl ?_
    intro c d hcd
    simp [Snapshot.empty] at hcd

/-- Witness for C6: a two-frame multiset with distinct addresses merged
in both orders to the same Snapshot, and a key absent from all frames
absent from the result. -/
theorem c6_merge_order_independent_witness :
    mergeFrames [⟨none, "MODEL", "A"⟩, ⟨some 1, "RSSI", "50"⟩] =
      mergeFrames [⟨some 1, "RSSI", "50"⟩, ⟨none, "MODEL", "A"⟩]
    ∧ (mergeFrames [⟨none, "MODEL", "A"⟩, ⟨some 1, "RSSI", "50"⟩]).device
        "FREQUENCY" = none :=
  ⟨c6_merge_order_independent.1 _ _ (List.Perm.swap _ _ _) (by decide),
   (c6_merge_order_independent.2
      [⟨none, "MODEL", "A"⟩, ⟨some 1, "RSSI", "50"⟩] "FREQUENCY"
      (by decide)).1⟩

/-- The loop body of `process_raw_data` computes exactly the
until-first-SAMPLE semantics, by induction over the parts. -/
theorem processParts_eq (host : String) :
    ∀ l : List String,
      monitor.processParts host l = monitor.emissionsUntilFirstSample host l
  | [] => by
    simp [monitor.processParts, monitor.emissionsUntilFirstSample]
  | p :: t => by
    by_cases hp : pyStrip p = ""
    · have hl : monitor.processParts host (p :: t) =
          monitor.processParts host t := by
        simp [monitor.processParts, hp]
      rw [hl, processParts_eq host t]
      simp [monitor.emissionsUntilFirstSample, hp]
    · by_cases hs : pyStartsWith ("< " ++ pyStrip p) "< SAMPLE" = true
      · simp [monitor.processParts, monitor.emissionsUntilFirstSample, hp, hs]
      · simp only [monitor.processParts, monitor.emissionsUntilFirstSample,
          hp, hs, if_neg, if_false, List.map_cons, List.filter_cons,
          decide_eq_true_eq]
        simp [hp, hs, processParts_eq host t,
          monitor.emissionsUntilFirstSample, List.append_assoc]

/-- C5 (amended): the polling monitor forwards every decoded triple of a
chunk up to and including the first `SAMPLE`-prefixed part — replies
before it each contribute their metric, the SAMPLE part contributes its
sample metrics — and nothing after that part is processed, because
`process_raw_data` returns at the first SAMPLE-prefixed part. -/
theorem c5_forward_until_first_sample :
    ∀ host raw,
      monitor.process_raw_data host raw =
        monitor.emissionsUntilFirstSample host (pySplitOn raw "<") := by
  intro host raw
  exact processParts_eq host (pySplitOn raw "<")

/-- C4 (amended): the multi-channel family drops every part carrying the
`ERR` error marker before parsing: if every received part is blank or
error-marked, no candidate line survives, a single-key GET returns the
no-data result (never a value or an error), and the bulk Snapshot is
empty.  The point-to-point family has no such filter: its extraction
keeps an error-marked frame (second conjunct; the counterexample shows
it then reaches the bulk Snapshot). -/
theorem c4_ad4d_error_frames_dropped :
    (∀ raw,
      (∀ part ∈ pySplitOn raw "< REP ",
          pyStrip part = "" ∨ pyContains "ERR" part = true) →
      ad4d.extract_lines raw = []
      ∧ (∀ command expect fmt,
          ad4d.send_command command expect fmt false (.recv raw) =
            if fmt = "text" then ResultA.pyNone
            else .str (format_output_empty fmt))
      ∧ (∀ command expect fmt,
          ad4d.send_command command expect fmt true (.recv raw) =
            .formattedSnap Snapshot.empty fmt))
    ∧ p10t.extract_lines "< REPORT ERR 1 FREQUENCY >" =
        ["< REPORT ERR 1 FREQUENCY >"] := by
  constructor
  · intro raw h
    have he : ad4d.extract_lines raw = [] := by
      unfold ad4d.extract_lines
      have hf : (pySplitOn raw "< REP ").filter
          (fun part => (!decide (pyStrip part = "")) &&
            !(pyContains "ERR" part)) = [] := by
        rw [List.filter_eq_nil_iff]
        intro part hpart
        rcases h part hpart with h1 | h1
        · simp [h1]
        · simp [h1]
      rw [hf]
      rfl
    refine ⟨he, ?_, ?_⟩
    · intro command expect fmt
      by_cases ft : fmt = "text"
      · simp [ad4d.send_command, ad4d.send_body, ad4d.process, he,
          ad4d.match_loop, ft]
      · simp [ad4d.send_command, ad4d.send_body, ad4d.process, he,
          ad4d.match_loop, ft]
    · intro command expect fmt
      simp [ad4d.send_command, ad4d.send_body, ad4d.process, he, mergeFrames]
  · decide

/-- Witness for C4: a drained buffer whose sole frame carries `ERR` —
the part is dropped, and a GET that asked for that very address gets the
no-data `None`, not the error frame. -/
theorem c4_ad4d_error_frames_dropped_witness :
    ad4d.extract_lines "< REP 1 RSSI ERR >" = []
    ∧ ad4d.send_command (some "GET 1 RSSI") (some "1 RSSI") "text" false
        (.recv "< REP 1 RSSI ERR >") = ResultA.pyNone := by
  have h := c4_ad4d_error_frames_dropped.1 "< REP 1 RSSI ERR >" (by decide)
  refine ⟨h.1, ?_⟩
  rw [h.2.1 (some "GET 1 RSSI") (some "1 RSSI") "text"]
  simp

/-! ### C8 — NoData versus TransportError -/

/-- `format_output({}, fmt)` never coincides with an `(error: …)`
string: their second characters differ (`{}`/`(no data)` versus
`(error: …)`). -/
theorem format_output_empty_ne_errString (fmt m : String) :
    ¬ format_output_empty fmt = errString m := by
  obtain ⟨md⟩ := m
  intro h
  have h2 := congrArg (fun s : String => s.data.get? 1) h
  have he : ((errString ⟨md⟩).data.get? 1) = some 'e' := rfl
  simp only [he] at h2
  unfold format_output_empty at h2
  split_ifs at h2 <;> exact absurd h2 (by decide)

/-- `"(no match)"` never coincides with an `(error: …)` string. -/
theorem no_match_ne_errString (m : String) :
    ¬ (("(no match)" : String) = errString m) := by
  obtain ⟨md⟩ := m
  intro h
  have h2 := congrArg (fun s : String => s.data.get? 1) h
  have he : ((errString ⟨md⟩).data.get? 1) = some 'e' := rfl
  simp only [he] at h2
  exact absurd h2 (by decide)

/-- One unrolling of the ad4d single-reply scan. -/
theorem ad4d_match_loop_cons_eq (command expect : Option String)
    (fmt : String) (bulk : Bool) (line : String) (rest : List String) :
    ad4d.match_loop command expect fmt bulk (line :: rest) =
      (match ad4d.parse_report_line line with
       | none => ad4d.match_loop command expect fmt bulk rest
       | some f =>
         if expect = none || expect = some (ad4d.match_key f) then
           if (match command with
               | some c => pyStartsWith c "SET"
               | none => false) then
             some .pyNone
           else if bulk || !decide (fmt = "text") then
             some (.formattedFrame f fmt)
           else some (.str f.value)
         else ad4d.match_loop command expect fmt bulk rest) := rfl

/-- One unrolling of the p10t single-reply scan. -/
theorem p10t_match_loop_cons_eq (expect : Option String) (fmt : String)
    (bulk : Bool) (line : String) (rest : List String) :
    p10t.match_loop expect fmt bulk (line :: rest) =
      (match p10t.parse_report_line line with
       | Option.none => p10t.match_loop expect fmt bulk rest
       | some d =>
         match p10t.match_key_of d with
         | .error m => .error m
         | .ok mk =>
           if some mk = expect then
             if bulk || !decide (fmt = "text") then
               .ok (some (.formattedDict d fmt))
             else
               match firstNonChannelVal d with
               | some PyVal.none => .ok (some .pyNone)
               | some (PyVal.str s) => .ok (some (.str s))
               | some (PyVal.int n) => .ok (some (.int n))
               | Option.none => .error ""
           else p10t.match_loop expect fmt bulk rest) := rfl

/-- When no extracted ad4d line parses to the expected address, the
single-reply scan finds nothing. -/
theorem ad4d_match_loop_none (command : Option String) (expect fmt : String) :
    ∀ lines : List String,
      (∀ l ∈ lines, ∀ f, ad4d.parse_report_line l = some f →
          ¬ ad4d.match_key f = expect) →
      ad4d.match_loop command (some expect) fmt false lines = none := by
  intro lines
  induction lines with
  | nil => intro _; rfl
  | cons l t ih =>
    intro h
    have ht : ∀ l' ∈ t, ∀ f, ad4d.parse_report_line l' = some f →
        ¬ ad4d.match_key f = expect :=
      fun l' hl' => h l' (List.mem_cons_of_mem _ hl')
    rw [ad4d_match_loop_cons_eq]
    cases hp : ad4d.parse_report_line l with
    | none =>
      exact ih ht
    | some f =>
      have hm : ¬ ad4d.match_key f = expect :=
        h l (List.mem_cons_self _ _) f hp
      simpa [Ne.symm hm] using ih ht

/-- When no extracted p10t line parses to the expected address (and each
parsed dict yields a well-formed match key), the single-reply scan finds
nothing. -/
theorem p10t_match_loop_none (expect fmt : String) :
    ∀ lines : List String,
      (∀ l ∈ lines, ∀ d, p10t.parse_report_line l = some d →
          (p10t.match_key_of d).toOption ≠ none
          ∧ (p10t.match_key_of d).toOption ≠ some expect) →
      p10t.match_loop (some expect) fmt false lines = .ok none := by
  intro lines
  induction lines with
  | nil => intro _; rfl
  | cons l t ih =>
    intro h
    have ht := fun l' hl' => h l' (List.mem_cons_of_mem _ hl')
    rw [p10t_match_loop_cons_eq]
    cases hp : p10t.parse_report_line l with
    | none =>
      exact ih ht
    | some d =>
      have hd := h l (List.mem_cons_self _ _) d hp
      cases hk : p10t.match_key_of d with
      | error e =>
        exact absurd (by simp [Except.toOption, hk]) hd.1
      | ok mk =>
        have hne : ¬ mk = expect := by
          intro e
          exact hd.2 (by simp [Except.toOption, hk, e])
        simpa [hk, hne] using ih ht

/-- C8: a GET whose connection succeeds but for which no reply matching
the requested address arrives within the read window returns the
distinguished no-data result (`None` in text mode, the rendering of an
empty dict otherwise — `"(no match)"` for the point-to-point CLI's text
mode); a call whose connection attempt raises returns the transport
error string `(error: …)`; and these two results are never equal, for
any format and any exception text. -/
theorem c8_nodata_distinct_from_transport_error :
    (∀ (cmd expect raw fmt : String),
        pyStartsWith cmd "GET" = true →
        (∀ l ∈ ad4d.extract_lines raw, ∀ f,
            ad4d.parse_report_line l = some f →
            ¬ ad4d.match_key f = expect) →
        ad4d.send_command (some cmd) (some expect) fmt false (.recv raw) =
          (if fmt = "text" then ResultA.pyNone
           else .str (format_output_empty fmt))
        ∧ (∀ m, ad4d.send_command (some cmd) (some expect) fmt false
              (.raiseExc m) = .str (errString m))
        ∧ (∀ m, ¬ ((if fmt = "text" then ResultA.pyNone
              else ResultA.str (format_output_empty fmt)) =
              ResultA.str (errString m))))
    ∧ (∀ (expect raw fmt : String),
        (∀ l ∈ p10t.extract_lines raw, ∀ d,
            p10t.parse_report_line l = some d →
            (p10t.match_key_of d).toOption ≠ none
            ∧ (p10t.match_key_of d).toOption ≠ some expect) →
        p10t.send_command (some expect) fmt false (.recv raw) =
          (if fmt = "text" then ResultP.str "(no match)"
           else .str (format_output_empty fmt))
        ∧ (∀ m, p10t.send_command (some expect) fmt false (.raiseExc m) =
            .str (errString m))
        ∧ (∀ m, ¬ ((if fmt = "text" then ResultP.str "(no match)"
              else ResultP.str (format_output_empty fmt)) =
              ResultP.str (errString m)))) := by
  constructor
  · intro cmd expect raw fmt _hget h
    have hloop := ad4d_match_loop_none (some cmd) expect fmt
      (ad4d.extract_lines raw) h
    refine ⟨?_, fun m => rfl, ?_⟩
    · by_cases ft : fmt = "text"
      · subst ft
        simp [ad4d.send_command, ad4d.send_body, ad4d.process, hloop]
      · simp [ad4d.send_command, ad4d.send_body, ad4d.process, hloop, ft]
    · intro m
      by_cases ft : fmt = "text"
      · rw [if_pos ft]
        intro hcontra
        cases hcontra
      · rw [if_neg ft]
        intro hcontra
        exact format_output_empty_ne_errString fmt m (ResultA.str.inj hcontra)
  · intro expect raw fmt h
    have hloop := p10t_match_loop_none expect fmt (p10t.extract_lines raw) h
    refine ⟨?_, fun m => rfl, ?_⟩
    · by_cases ft : fmt = "text"
      · subst ft
        simp [p10t.send_command, p10t.send_body, p10t.process, hloop]
      · simp [p10t.send_command, p10t.send_body, p10t.process, hloop, ft]
    · intro m
      by_cases ft : fmt = "text"
      · rw [if_pos ft]
        intro hcontra
        exact no_match_ne_errString m (ResultP.str.inj hcontra)
      · rw [if_neg ft]
        intro hcontra
        exact format_output_empty_ne_errString fmt m (ResultP.str.inj hcontra)

/-- Witness for C8: a drained reply for channel 1 never matches a GET
addressed to channel 2 (ad4d) or to `DEVICE_NAME` (p10t): the calls
return `None` / `"(no match)"`, while the same calls under a failed
connection return the error string. -/
theorem c8_nodata_distinct_witness :
    ad4d.send_command (some "GET 2 FREQUENCY") (some "2 FREQUENCY") "text"
      false (.recv "< REP 1 FREQUENCY 500.000 >") = ResultA.pyNone
    ∧ ad4d.send_command (some "GET 2 FREQUENCY") (some "2 FREQUENCY") "text"
      false (.raiseExc "connection refused") =
        .str "(error: connection refused)"
    ∧ p10t.send_command (some "DEVICE_NAME") "text" false
      (.recv "< REPORT 1 FREQUENCY 500.000 >") = .str "(no match)"
    ∧ p10t.send_command (some "DEVICE_NAME") "text" false
      (.raiseExc "connection refused") = .str "(error: connection refused)" := by
  have ha := c8_nodata_distinct_from_transport_error.1 "GET 2 FREQUENCY"
    "2 FREQUENCY" "< REP 1 FREQUENCY 500.000 >" "text" (by decide) (by decide)
  have hp := c8_nodata_distinct_from_transport_error.2 "DEVICE_NAME"
    "< REPORT 1 FREQUENCY 500.000 >" "text" (by decide)
  refine ⟨?_, ?_, ?_, ?_⟩
  · rw [ha.1]
    simp
  · exact ha.2.1 "connection refused"
  · rw [hp.1]
    simp
  · exact hp.2.1 "connection refused"

/-! ### C3 — brace handling of the direct-reply grammars -/

/-- A key-class character is never whitespace. -/
theorem keyChar_not_space {c : Char} (h : isKeyChar c = true) :
    isPySpace c = false := by
  cases hsp : isPySpace c
  · rfl
  · exfalso
    simp only [isPySpace, Bool.or_eq_true, decide_eq_true_eq] at hsp
    rcases hsp with (((((h1 | h1) | h1) | h1) | h1) | h1) <;>
      (subst h1; exact absurd h (by decide))

/-- `dropWhile` keeps a list whose head fails the predicate. -/
theorem dropWhile_head_false (p : Char → Bool) (l : List Char)
    (h : ∀ c, l.head? = some c → p c = false) : l.dropWhile p = l := by
  cases l with
  | nil => rfl
  | cons c t =>
    have hc : p c = false := h c rfl
    simp [List.dropWhile_cons, hc]

/-- `dropWhile` keeps a list none of whose members satisfies the
predicate. -/
theorem dropWhile_all_false (p : Char → Bool) (l : List Char)
    (h : ∀ c ∈ l, p c = false) : l.dropWhile p = l :=
  dropWhile_head_false p l fun c hc => by
    cases l with
    | nil => simp at hc
    | cons a t =>
      have : a = c := by simpa using hc
      exact h c (this ▸ List.mem_cons_self a t)

/-- `str.strip()` is the identity on a string with no whitespace at
all. -/
theorem pyStripList_id (l : List Char) (h : ∀ c ∈ l, isPySpace c = false) :
    pyStripList l = l := by
  unfold pyStripList
  rw [dropWhile_all_false _ _ h,
    dropWhile_all_false _ _ fun c hc => h c (List.mem_reverse.mp hc),
    List.reverse_reverse]

/-- `str.strip()` is the identity when the first and last characters are
not whitespace. -/
theorem pyStripList_ends (a b : Char) (mid : List Char)
    (ha : isPySpace a = false) (hb : isPySpace b = false) :
    pyStripList ((a :: mid) ++ [b]) = (a :: mid) ++ [b] := by
  unfold pyStripList
  have h1 : ((a :: mid) ++ [b]).dropWhile isPySpace = (a :: mid) ++ [b] :=
    dropWhile_head_false _ _ fun c hc => by
      have : a = c := by simpa using hc
      exact this ▸ ha
  rw [h1]
  have hrev : ((a :: mid) ++ [b]).reverse = (b :: mid.reverse) ++ [a] := by
    simp
  rw [hrev]
  have h2 : ((b :: mid.reverse) ++ [a]).dropWhile isPySpace =
      (b :: mid.reverse) ++ [a] :=
    dropWhile_head_false _ _ fun c hc => by
      have : b = c := by simpa using hc
      exact this ▸ hb
  rw [h2]
  simp

/-- `takeWhile` passes over an all-satisfying prefix. -/
theorem takeWhile_all_append (p : Char → Bool) :
    ∀ (a b : List Char), (∀ c ∈ a, p c = true) →
      (a ++ b).takeWhile p = a ++ b.takeWhile p
  | [], _, _ => by simp
  | c :: a, b, h => by
    have hc : p c = true := h c (by simp)
    simp only [List.cons_append, List.takeWhile_cons, hc, if_true]
    rw [takeWhile_all_append p a b fun x hx => h x (by simp [hx])]

/-- `dropWhile` consumes an all-satisfying prefix. -/
theorem dropWhile_all_append (p : Char → Bool) :
    ∀ (a b : List Char), (∀ c ∈ a, p c = true) →
      (a ++ b).dropWhile p = b.dropWhile p
  | [], _, _ => by simp
  | c :: a, b, h => by
    have hc : p c = true := h c (by simp)
    simp only [List.cons_append, List.dropWhile_cons, hc, if_true]
    exact dropWhile_all_append p a b fun x hx => h x (by simp [hx])

/-- The `\}?\s*>?$` tail never matches at a value-class, non-space
character. -/
theorem repTail_good_head {c : Char} (l : List Char)
    (hv : isValChar c = true) (hs : isPySpace c = false) :
    ad4d.repTail (c :: l) = false := by
  have hne : ¬ c = '}' := by
    intro e
    subst e
    exact absurd hv (by decide)
  have hne2 : ¬ c = '>' := by
    intro e
    subst e
    exact absurd hv (by decide)
  unfold ad4d.repTail
  simp only [if_neg hne]
  rw [dropWhile_head_false _ _ fun c' hc' => by
    have : c = c' := by simpa using hc'
    exact this ▸ hs]
  simp [hne2]

/-- One unrolling of the lazy value group. -/
theorem lazyValue_cons_eq (acc : List Char) (c : Char) (rest : List Char) :
    ad4d.lazyValue acc (c :: rest) =
      (if isValChar c then
        (if ad4d.repTail rest then some (acc ++ [c])
         else ad4d.lazyValue (acc ++ [c]) rest)
       else none) := rfl

/-- The lazy value group consumes exactly a non-empty run of value-class
non-space characters when the remainder is a matching tail. -/
theorem lazyValue_append :
    ∀ (vd cl acc : List Char),
      vd ≠ [] →
      (∀ c ∈ vd, isValChar c = true ∧ isPySpace c = false) →
      ad4d.repTail cl = true →
      ad4d.lazyValue acc (vd ++ cl) = some (acc ++ vd)
  | [], _, _, hne, _, _ => absurd rfl hne
  | c :: vtail, cl, acc, _, hgood, hcl => by
    have hc := hgood c (by simp)
    cases vtail with
    | nil =>
      simp [lazyValue_cons_eq, hc.1, hcl]
    | cons c' vt =>
      have hc' := hgood c' (by simp)
      have hrt : ad4d.repTail (c' :: (vt ++ cl)) = false :=
        repTail_good_head _ hc'.1 hc'.2
      have hrec := lazyValue_append (c' :: vt) cl (acc ++ [c]) (by simp)
        (fun x hx => hgood x (by simp [hx])) hcl
      simp only [List.cons_append] at hrec ⊢
      rw [lazyValue_cons_eq, if_pos hc.1, if_neg (by simp [hrt]), hrec]
      simp

/-- Projection of an explicit string. -/
theorem dataMk (l : List Char) : (⟨l⟩ : String).data = l := rfl

/-- `String.append` in terms of the data lists. -/
theorem strAppendData (s t : String) : s ++ t = ⟨s.data ++ t.data⟩ := by
  obtain ⟨a⟩ := s
  obtain ⟨b⟩ := t
  rfl

/-- The key/value stage of `REP_RE` on `KEY<space>W`: the key is the
maximal class run, one space separates it from the value part, and the
value part of `W` resolves to `vd`. -/
theorem ad4d_keyValue_run (k0 : Char) (ks W vd : List Char)
    (hk0 : isKeyChar k0 = true)
    (hks : ∀ c ∈ ks, isKeyChar c = true)
    (hW : ∀ c, W.head? = some c → isPySpace c = false)
    (hvp : ad4d.valuePart W = some vd) :
    ad4d.keyValue (k0 :: (ks ++ (' ' :: W))) = some (k0 :: ks, vd) := by
  have htwW : W.takeWhile isKeyChar = W.takeWhile isKeyChar := rfl
  have htw : (k0 :: (ks ++ (' ' :: W))).takeWhile isKeyChar = k0 :: ks := by
    rw [List.takeWhile_cons, if_pos hk0, takeWhile_all_append _ ks _ hks,
      List.takeWhile_cons, if_neg (by decide)]
    simp
  have hdw : (k0 :: (ks ++ (' ' :: W))).dropWhile isKeyChar = ' ' :: W := by
    rw [List.dropWhile_cons, if_pos hk0, dropWhile_all_append _ ks _ hks,
      List.dropWhile_cons, if_neg (by decide)]
  have hsb : ad4d.spaceBranches (' ' :: W) = [W] := by
    unfold ad4d.spaceBranches
    have h1 : (' ' :: W).takeWhile isPySpace = [' '] := by
      rw [List.takeWhile_cons, if_pos (by decide)]
      cases W with
      | nil => rfl
      | cons w0 W' =>
        rw [List.takeWhile_cons, if_neg (by simp [hW w0 rfl])]
    rw [h1]
    simp [List.range_succ]
  unfold ad4d.keyValue
  rw [htw, hdw]
  rw [if_neg (by simp)]
  rw [hsb]
  have hvb : ad4d.valueOnBranches [W] = some vd := by
    unfold ad4d.valueOnBranches
    rw [hvp]
  simp [hvb, (by decide : isPySpace ' ' = true)]

/-- `REP_RE` on a full line `< REP KEY<space>W` whose key does not start
with a digit: the channel group matches empty and the key/value stage
decides the groups. -/
theorem ad4d_repMatch_run (k0 : Char) (ks W vd : List Char)
    (hk0 : isKeyChar k0 = true)
    (hk0d : isDigitChar k0 = false)
    (hks : ∀ c ∈ ks, isKeyChar c = true)
    (hW : ∀ c, W.head? = some c → isPySpace c = false)
    (hvp : ad4d.valuePart W = some vd) :
    ad4d.repMatch ('<' :: ' ' :: 'R' :: 'E' :: 'P' :: ' ' ::
        (k0 :: (ks ++ (' ' :: W)))) = some (none, k0 :: ks, vd) := by
  have hkv := ad4d_keyValue_run k0 ks W vd hk0 hks hW hvp
  have hck : ad4d.chanKeyValue (k0 :: (ks ++ (' ' :: W))) =
      some (none, k0 :: ks, vd) := by
    unfold ad4d.chanKeyValue
    simp [hk0d, hkv]
  have hdw1 : (' ' :: 'R' :: 'E' :: 'P' :: ' ' ::
      (k0 :: (ks ++ (' ' :: W)))).dropWhile isPySpace =
      'R' :: 'E' :: 'P' :: ' ' :: (k0 :: (ks ++ (' ' :: W))) := by
    rw [List.dropWhile_cons, if_pos (by decide), List.dropWhile_cons,
      if_neg (by decide)]
  have hdw2 : (' ' :: (k0 :: (ks ++ (' ' :: W)))).dropWhile isPySpace =
      k0 :: (ks ++ (' ' :: W)) := by
    rw [List.dropWhile_cons, if_pos (by decide), List.dropWhile_cons,
      if_neg (by simp [keyChar_not_space hk0])]
  unfold ad4d.repMatch
  simp [hdw1, hdw2, hck, (by decide : isPySpace ' ' = true)]

/-- `parse_report_line` on a full `< REP KEY<space>W >` line: `strip` is
the identity (the ends are `<` and `>`), the matcher resolves the groups,
and the groups' own `strip` is the identity because key and value contain
no whitespace. -/
theorem ad4d_parse_run (k0 : Char) (ks W vd MID : List Char)
    (hk0 : isKeyChar k0 = true)
    (hk0d : isDigitChar k0 = false)
    (hks : ∀ c ∈ ks, isKeyChar c = true)
    (hW : ∀ c, W.head? = some c → isPySpace c = false)
    (hvp : ad4d.valuePart W = some vd)
    (hshape : '<' :: ' ' :: 'R' :: 'E' :: 'P' :: ' ' ::
        (k0 :: (ks ++ (' ' :: W))) = ('<' :: MID) ++ ['>'])
    (hvns : ∀ c ∈ vd, isPySpace c = false) :
    ad4d.parse_report_line ⟨'<' :: ' ' :: 'R' :: 'E' :: 'P' :: ' ' ::
        (k0 :: (ks ++ (' ' :: W)))⟩ =
      some ⟨none, ⟨k0 :: ks⟩, ⟨vd⟩⟩ := by
  have hstrip : pyStripList ('<' :: ' ' :: 'R' :: 'E' :: 'P' :: ' ' ::
      (k0 :: (ks ++ (' ' :: W)))) =
      '<' :: ' ' :: 'R' :: 'E' :: 'P' :: ' ' :: (k0 :: (ks ++ (' ' :: W))) := by
    rw [hshape]
    exact pyStripList_ends _ _ _ (by decide) (by decide)
  have h1 : pyStrip ⟨'<' :: ' ' :: 'R' :: 'E' :: 'P' :: ' ' ::
      (k0 :: (ks ++ (' ' :: W)))⟩ =
      ⟨'<' :: ' ' :: 'R' :: 'E' :: 'P' :: ' ' :: (k0 :: (ks ++ (' ' :: W)))⟩ :=
    congrArg String.mk hstrip
  have hrm := ad4d_repMatch_run k0 ks W vd hk0 hk0d hks hW hvp
  unfold ad4d.parse_report_line
  rw [h1]
  rw [dataMk, hrm]
  have hkstrip : pyStrip ⟨k0 :: ks⟩ = ⟨k0 :: ks⟩ :=
    congrArg String.mk (pyStripList_id _ fun c hc => by
      rcases List.mem_cons.mp hc with h | h
      · exact h ▸ keyChar_not_space hk0
      · exact keyChar_not_space (hks c h))
  have hvstrip : pyStrip ⟨vd⟩ = ⟨vd⟩ :=
    congrArg String.mk (pyStripList_id _ hvns)
  simp [hkstrip, hvstrip]

/-- C3 (amended): for the point-to-point family the brace pair is kept —
`< REPORT DEVICE_NAME {Unit-A} >` decodes to scope = Device,
key `DEVICE_NAME`, value `"{Unit-A}"` — while brace stripping belongs to
the multi-channel family's direct-reply parser: for every key (of the
key class, not starting with a digit) and every brace-free,
whitespace-free value of the value class, a `< REP KEY {value} >` frame
decodes with exactly the one wrapping brace pair stripped, and a
`< REP KEY value >` frame passes the value through unchanged. -/
theorem c3_report_braces_kept_rep_braces_stripped :
    p10t.parse_report_line "< REPORT DEVICE_NAME {Unit-A} >" =
      some [("channel", PyVal.none), ("DEVICE_NAME", PyVal.str "{Unit-A}")]
    ∧ (∀ key value : String,
        key.data ≠ [] →
        (∀ c, key.data.head? = some c → isDigitChar c = false) →
        (∀ c ∈ key.data, isKeyChar c = true) →
        value.data ≠ [] →
        (∀ c ∈ value.data,
            isValChar c = true ∧ isPySpace c = false ∧ ¬ c = '{') →
        ad4d.parse_report_line ("< REP " ++ key ++ " \x7b" ++ value ++ "\x7d >") =
          some ⟨none, key, value⟩
        ∧ ad4d.parse_report_line ("< REP " ++ key ++ " " ++ value ++ " >") =
          some ⟨none, key, value⟩) := by
  refine ⟨by decide, ?_⟩
  intro key value hkne hkd hkall hvne hvall
  obtain ⟨kd⟩ := key
  obtain ⟨vd⟩ := value
  simp only [dataMk] at hkne hkd hkall hvne hvall
  cases kd with
  | nil => exact absurd rfl hkne
  | cons k0 ks =>
    have hk0 : isKeyChar k0 = true := hkall k0 (by simp)
    have hk0d : isDigitChar k0 = false := hkd k0 rfl
    have hks : ∀ c ∈ ks, isKeyChar c = true :=
      fun c hc => hkall c (by simp [hc])
    have hvgood : ∀ c ∈ vd, isValChar c = true ∧ isPySpace c = false :=
      fun c hc => ⟨(hvall c hc).1, (hvall c hc).2.1⟩
    have hvns : ∀ c ∈ vd, isPySpace c = false := fun c hc => (hvall c hc).2.1
    constructor
    · have hvp : ad4d.valuePart ('{' :: (vd ++ ['}', ' ', '>'])) = some vd := by
        unfold ad4d.valuePart
        have hl := lazyValue_append vd ['}', ' ', '>'] [] hvne hvgood
          (by decide)
        simp only [List.nil_append] at hl
        simp [hl]
      have hW : ∀ c, ('{' :: (vd ++ ['}', ' ', '>'])).head? = some c →
          isPySpace c = false := by
        intro c hc
        have he : '{' = c := by simpa using hc
        subst he
        decide
      have hshape : '<' :: ' ' :: 'R' :: 'E' :: 'P' :: ' ' ::
          (k0 :: (ks ++ (' ' :: ('{' :: (vd ++ ['}', ' ', '>']))))) =
          ('<' :: (' ' :: 'R' :: 'E' :: 'P' :: ' ' ::
            (k0 :: (ks ++ (' ' :: ('{' :: (vd ++ ['}', ' '])))))))
            ++ ['>'] := by
        simp
      have hrun := ad4d_parse_run k0 ks ('{' :: (vd ++ ['}', ' ', '>'])) vd _
        hk0 hk0d hks hW hvp hshape hvns
      have estr : ("< REP " ++ (⟨k0 :: ks⟩ : String) ++ " \x7b" ++ ⟨vd⟩ ++ "\x7d >") =
          ⟨'<' :: ' ' :: 'R' :: 'E' :: 'P' :: ' ' ::
            (k0 :: (ks ++ (' ' :: ('{' :: (vd ++ ['}', ' ', '>'])))))⟩ := by
        simp only [strAppendData, dataMk]
        congr 1
        show (((('<' :: ' ' :: 'R' :: 'E' :: 'P' :: ' ' :: []) ++ (k0 :: ks))
            ++ (' ' :: '{' :: [])) ++ vd) ++ ('}' :: ' ' :: '>' :: []) = _
        simp [List.append_assoc]
      rw [estr]
      exact hrun
    · cases vd with
      | nil => exact absurd rfl hvne
      | cons v0 vt =>
        have hv0 := hvall v0 (by simp)
        have hvp : ad4d.valuePart ((v0 :: vt) ++ [' ', '>']) =
            some (v0 :: vt) := by
          simp only [List.cons_append]
          unfold ad4d.valuePart
          have hl := lazyValue_append (v0 :: vt) [' ', '>'] [] (by simp)
            (fun c hc => ⟨(hvall c hc).1, (hvall c hc).2.1⟩) (by decide)
          simp only [List.cons_append, List.nil_append] at hl
          simp [hv0.2.2, hl]
        have hW : ∀ c, ((v0 :: vt) ++ [' ', '>']).head? = some c →
            isPySpace c = false := by
          intro c hc
          simp only [List.cons_append] at hc
          have he : v0 = c := by simpa using hc
          exact he ▸ hv0.2.1
        have hshape : '<' :: ' ' :: 'R' :: 'E' :: 'P' :: ' ' ::
            (k0 :: (ks ++ (' ' :: ((v0 :: vt) ++ [' ', '>'])))) =
            ('<' :: (' ' :: 'R' :: 'E' :: 'P' :: ' ' ::
              (k0 :: (ks ++ (' ' :: ((v0 :: vt) ++ [' '])))))) ++ ['>'] := by
          simp
        have hrun := ad4d_parse_run k0 ks ((v0 :: vt) ++ [' ', '>'])
          (v0 :: vt) _ hk0 hk0d hks hW hvp hshape hvns
        have estr : ("< REP " ++ (⟨k0 :: ks⟩ : String) ++ " " ++ ⟨v0 :: vt⟩
            ++ " >") =
            ⟨'<' :: ' ' :: 'R' :: 'E' :: 'P' :: ' ' ::
              (k0 :: (ks ++ (' ' :: ((v0 :: vt) ++ [' ', '>']))))⟩ := by
          simp only [strAppendData, dataMk]
          congr 1
          show (((('<' :: ' ' :: 'R' :: 'E' :: 'P' :: ' ' :: []) ++ (k0 :: ks))
              ++ (' ' :: [])) ++ (v0 :: vt)) ++ (' ' :: '>' :: []) = _
          simp [List.append_assoc]
        rw [estr]
        exact hrun

/-- Witness for C3: the concrete key `DEVICE_ID` and value `Unit-A` —
`< REP DEVICE_ID {Unit-A} >` decodes with the brace pair stripped and
`< REP DEVICE_ID Unit-A >` decodes unchanged. -/
theorem c3_report_braces_witness :
    ad4d.parse_report_line "< REP DEVICE_ID {Unit-A} >" =
      some ⟨none, "DEVICE_ID", "Unit-A"⟩
    ∧ ad4d.parse_report_line "< REP DEVICE_ID Unit-A >" =
      some ⟨none, "DEVICE_ID", "Unit-A"⟩ :=
  c3_report_braces_kept_rep_braces_stripped.2 "DEVICE_ID" "Unit-A"
    (by decide) (by decide) (by decide) (by decide) (by decide)
